import Mathlib

/-!
# Verification of the Clerk/Fastify authentication plugin

A shallow embedding of the request-authentication pipeline of the
`@palindrom-ai/auth` package: credential extraction (`src/token.ts`),
delegated verification and identity mapping (`src/token.ts`), the
authentication gate and its error mapper (`src/plugin.ts`), the error
taxonomy (`src/errors.ts`), and the permission-check layer
(`src/permissions.ts`).

JavaScript strings are modelled as Lean `String`s with helper operations
defined over their character lists so that every definition evaluates by
kernel reduction.  JavaScript truthiness of strings (the empty string is
falsy) and of optional values (`undefined`/`null` are falsy) is made
explicit at each use site, mirroring the exact conditions of the source.
-/

/-- JS `s.startsWith(p)` (`token.ts` uses it on the Authorization header). -/
def strStartsWith (s p : String) : Bool :=
  p.data.isPrefixOf s.data

/-- JS `s.slice(n)` for a non-negative index (`authHeader.slice(7)`). -/
def strSlice (s : String) (n : Nat) : String :=
  ⟨s.data.drop n⟩

/-- Substring occurrence over character lists, structural in the haystack. -/
def listContainsSub (pat : List Char) : List Char → Bool
  | [] => pat.isEmpty
  | c :: tl => pat.isPrefixOf (c :: tl) || listContainsSub pat tl

/-- JS `s.includes(pat)`: substring containment
(`error.message.includes('expired')` in `token.ts`). -/
def strIncludes (s pat : String) : Bool :=
  listContainsSub pat.data s.data

/-! ## Error taxonomy (`src/errors.ts`) -/

/-- `AuthErrorCode`: the closed set of authentication error codes. -/
inductive AuthErrorCode where
  | UNAUTHORIZED
  | INVALID_TOKEN
  | TOKEN_EXPIRED
  | FORBIDDEN
deriving DecidableEq, Repr

/-- `AuthError`: code, human-readable message and HTTP status code. -/
structure AuthError where
  code : AuthErrorCode
  message : String
  statusCode : Nat
deriving DecidableEq, Repr

/-- The `AuthError` constructor: when no explicit status code is supplied,
`FORBIDDEN` defaults to 403 and every other code to 401
(`statusCode ?? (code === 'FORBIDDEN' ? 403 : 401)`). -/
def AuthError.make (code : AuthErrorCode) (message : String)
    (statusOverride : Option Nat) : AuthError :=
  { code := code
    message := message
    statusCode := statusOverride.getD (if code = AuthErrorCode.FORBIDDEN then 403 else 401) }

/-- The body shape produced by `AuthError.toResponse`:
`{ error: { code, message } }`. -/
structure AuthErrorResponse where
  code : AuthErrorCode
  message : String
deriving DecidableEq, Repr

/-- `AuthError.prototype.toResponse`. -/
def AuthError.toResponse (e : AuthError) : AuthErrorResponse :=
  { code := e.code, message := e.message }

/-! ## Claim sets and the identity record (`src/context.ts`, `src/token.ts`) -/

/-- A JSON-like claim value as the TypeScript code distinguishes them:
string values (`typeof v === 'string'`), lists of strings (the shapes the
`roles`/`scopes` metadata casts expect), object values (metadata records)
and `null`.  Other JSON shapes (numbers, booleans, mixed arrays) behave
like the non-string constructors for every operation modelled here. -/
inductive ClaimValue where
  | str (s : String)
  | strList (l : List String)
  | obj (fields : List (String × ClaimValue))
  | null

/-- A claim set returned by the verification oracle (`JwtPayload`): the
mandatory `sub` claim, the optional `sid` claim, and the remaining claims
accessed by string index. -/
structure JwtPayload where
  sub : String
  sid : Option String
  claims : List (String × ClaimValue)

/-- `payload[key]` for an indexed claim; `none` models `undefined`. -/
def getClaim (payload : JwtPayload) (key : String) : Option ClaimValue :=
  payload.claims.lookup key

/-- `typeof payload[key] === 'string' ? payload[key] : null`. -/
def getStringClaim (payload : JwtPayload) (key : String) : Option String :=
  match getClaim payload key with
  | some (ClaimValue.str s) => some s
  | _ => none

/-- `(payload[key] as Record<string, unknown>) ?? {}`: an absent (`undefined`)
or `null` claim collapses to the empty object; any other value is kept
unchanged by the cast. -/
def getMetadataClaim (payload : JwtPayload) (key : String) : ClaimValue :=
  match getClaim payload key with
  | some ClaimValue.null => ClaimValue.obj []
  | some v => v
  | none => ClaimValue.obj []

/-- `UserContext` (`src/context.ts`): the identity record attached to a
request after successful verification. -/
structure UserContext where
  userId : String
  sessionId : String
  email : Option String
  firstName : Option String
  lastName : Option String
  imageUrl : Option String
  orgId : Option String
  orgRole : Option String
  orgSlug : Option String
  publicMetadata : ClaimValue
  privateMetadata : ClaimValue
  raw : JwtPayload

/-- `mapClerkPayloadToUserContext` (`src/token.ts`). -/
def mapClerkPayloadToUserContext (payload : JwtPayload) : UserContext :=
  { userId := payload.sub
    sessionId := payload.sid.getD ""
    email := getStringClaim payload "email"
    firstName := getStringClaim payload "first_name"
    lastName := getStringClaim payload "last_name"
    imageUrl := getStringClaim payload "image_url"
    orgId := getStringClaim payload "org_id"
    orgRole := getStringClaim payload "org_role"
    orgSlug := getStringClaim payload "org_slug"
    publicMetadata := getMetadataClaim payload "public_metadata"
    privateMetadata := getMetadataClaim payload "private_metadata"
    raw := payload }

/-! ## The verification delegate (`src/token.ts`) -/

/-- A value thrown by the oracle call on failure: either an `Error`
instance carrying a message, or any thrown value that is not an `Error`
object (`error instanceof Error` is false for it). -/
inductive Thrown where
  | errorObj (message : String)
  | nonError
deriving DecidableEq, Repr

/-- The outcome of one call to the external verification oracle
(`clerkVerifyToken`): a claim set on success, or a thrown value. -/
inductive OracleResult where
  | success (payload : JwtPayload)
  | failure (thrown : Thrown)

/-- The `catch` block of `verifyToken`: an `Error` whose message contains
the substring `"expired"` becomes `TOKEN_EXPIRED`; every other thrown
value (including every non-`Error` value) becomes `INVALID_TOKEN`. -/
def mapVerificationError : Thrown → AuthError
  | Thrown.errorObj message =>
      if strIncludes message "expired" then
        AuthError.make AuthErrorCode.TOKEN_EXPIRED "Token has expired" none
      else
        AuthError.make AuthErrorCode.INVALID_TOKEN "Invalid or malformed token" none
  | Thrown.nonError =>
      AuthError.make AuthErrorCode.INVALID_TOKEN "Invalid or malformed token" none

/-- The expiry test the `catch` block applies to a thrown value: it is an
`Error` object and its message contains the substring `"expired"`. -/
def expiryIndicated : Thrown → Bool
  | Thrown.errorObj message => strIncludes message "expired"
  | Thrown.nonError => false

/-- `verifyToken` (`src/token.ts`), as a function of the oracle call's
outcome: map the claim set on success, classify the thrown value on
failure. -/
def verifyTokenResult : OracleResult → Except AuthError UserContext
  | OracleResult.success payload => Except.ok (mapClerkPayloadToUserContext payload)
  | OracleResult.failure t => Except.error (mapVerificationError t)

/-- `verifyToken` applied to a concrete token, with the oracle (the Clerk
verification call under the plugin's fixed verification options) abstracted
as a function from tokens to outcomes. -/
def verifyToken (oracle : String → OracleResult) (token : String) :
    Except AuthError UserContext :=
  verifyTokenResult (oracle token)

/-! ## Credential extraction (`src/token.ts`) -/

/-- The request data the pipeline reads: the `Authorization` header
(`request.headers.authorization`), the cookie map when `@fastify/cookie`
is registered (`request.cookies`), and the route-level `public` marker
(`request.routeOptions.config?.public`). -/
structure Request where
  authorization : Option String
  cookies : Option (List (String × String))
  routeConfigPublic : Option Bool

/-- `request.cookies?.['__session']` followed by the truthiness test
`if (sessionCookie)`: an empty-string cookie value is falsy in JS, so it
does not yield a credential. -/
def extractSessionCookie (request : Request) : Option String :=
  match request.cookies with
  | some cookies =>
      match cookies.lookup "__session" with
      | some v => if v = "" then none else some v
      | none => none
  | none => none

/-- `extractToken` (`src/token.ts`): the Authorization header is checked
first (`authHeader?.startsWith('Bearer ')`, returning `authHeader.slice(7)`
verbatim on a match), then the `__session` cookie; otherwise `null`. -/
def extractToken (request : Request) : Option String :=
  match request.authorization with
  | some authHeader =>
      if strStartsWith authHeader "Bearer " then some (strSlice authHeader 7)
      else extractSessionCookie request
  | none => extractSessionCookie request

/-! ## The authentication gate (`src/plugin.ts`) -/

/-- The plugin options that influence the per-request control flow of the
pre-handler hook.  `none` models an unset option (`undefined`); the public
route check runs whenever `respectPublicRoutes !== false`.  The remaining
options (secret key, authorized parties, JWT key, `logFailures`) configure
startup, the oracle, or logging only. -/
structure AuthPluginOptions where
  respectPublicRoutes : Option Bool

/-- The observable outcome of one run of the pre-handler hook:
the identity attached to `request.user` (if any), the `AuthError` thrown
(if any), the errors reported through `logAuthFailure` — each of which is
passed to the `onAuthFailure` observer when one is configured — and
whether the extractor and the verification delegate were invoked at all. -/
structure GateOutcome where
  user : Option UserContext
  thrown : Option AuthError
  observed : List AuthError
  extractorCalled : Bool
  verifierCalled : Bool

/-- `createAuthPreHandler` (`src/plugin.ts`): skip marked-public routes
unless recognition is disabled; extract the credential and fail
`UNAUTHORIZED` when the extracted value is falsy (`if (!token)` — both
`null` and the empty string); otherwise verify, attaching the identity on
success and reporting/rethrowing the `AuthError` on failure. -/
def authPreHandler (options : AuthPluginOptions) (oracle : String → OracleResult)
    (request : Request) : GateOutcome :=
  if options.respectPublicRoutes ≠ some false ∧ request.routeConfigPublic = some true then
    { user := none, thrown := none, observed := [], extractorCalled := false,
      verifierCalled := false }
  else
    let unauthorizedError := AuthError.make AuthErrorCode.UNAUTHORIZED
      "Authentication required" none
    let unauthorizedOutcome : GateOutcome :=
      { user := none, thrown := some unauthorizedError,
        observed := [unauthorizedError], extractorCalled := true, verifierCalled := false }
    match extractToken request with
    | none => unauthorizedOutcome
    | some token =>
        if token = "" then unauthorizedOutcome
        else
          match verifyToken oracle token with
          | Except.ok user =>
              { user := some user, thrown := none, observed := [],
                extractorCalled := true, verifierCalled := true }
          | Except.error e =>
              { user := none, thrown := some e, observed := [e],
                extractorCalled := true, verifierCalled := true }

/-- A value reaching the Fastify error handler installed by the plugin:
an `AuthError` (`isAuthError(error)` is true) or any other error. -/
inductive HandlerInput where
  | auth (error : AuthError)
  | other

/-- What the installed error handler does with an error. -/
inductive HandlerResult where
  | reply (status : Nat) (body : AuthErrorResponse)
  | rethrow
deriving DecidableEq, Repr

/-- `authErrorHandler` (`src/plugin.ts`): an `AuthError` is sent as
`reply.status(error.statusCode).send(error.toResponse())`; every other
error is rethrown to the framework's default handling. -/
def authErrorHandler : HandlerInput → HandlerResult
  | HandlerInput.auth error => HandlerResult.reply error.statusCode error.toResponse
  | HandlerInput.other => HandlerResult.rethrow

/-! ## Permission checks (`src/permissions.ts`) -/

/-- The outcome of one run of a permission guard on a request. -/
inductive GuardResult where
  | ok
  | err (error : AuthError)
deriving DecidableEq, Repr

/-- `requirePermission` (`src/permissions.ts`), as a function of the
identity attached to the request (`request.user`, `none` when absent). -/
def requirePermission (check : UserContext → Bool) (errorMessage : String)
    (user : Option UserContext) : GuardResult :=
  match user with
  | none => GuardResult.err (AuthError.make AuthErrorCode.UNAUTHORIZED
      "Authentication required" none)
  | some u =>
      if check u then GuardResult.ok
      else GuardResult.err (AuthError.make AuthErrorCode.FORBIDDEN errorMessage none)

/-- Property access `metadata[key]`: a field lookup on an object value;
for the keys used by the guards, access on any non-object value yields
`undefined`. -/
def metadataGet : ClaimValue → String → Option ClaimValue
  | ClaimValue.obj fields, key => fields.lookup key
  | _, _ => none

/-- `userScopes?.includes(s)` under JS semantics: `undefined` (falsy) when
the attribute is absent or `null`, array membership for a string array,
substring containment when the unchecked cast hides a plain string.  An
object value would raise a TypeError at runtime; the theorems about scope
guards therefore assume the attribute is absent or a string list. -/
def optionalIncludes : Option ClaimValue → String → Bool
  | some (ClaimValue.strList l), s => l.contains s
  | some (ClaimValue.str t), s => strIncludes t s
  | some (ClaimValue.obj _), _ => false
  | some ClaimValue.null, _ => false
  | none, _ => false

/-- `requireScopes` (`src/permissions.ts`): every requested scope must be
in `user.publicMetadata['scopes']`; the message lists the scopes. -/
def requireScopes (scopes : List String) (user : Option UserContext) : GuardResult :=
  requirePermission
    (fun u => scopes.all (fun s => optionalIncludes (metadataGet u.publicMetadata "scopes") s))
    ("Scopes required: " ++ String.intercalate ", " scopes)
    user

/-- The caller's scopes list as the specification reads it: the
`"scopes"` public-metadata attribute, an absent attribute read as the
empty list. -/
def scopesOf (user : UserContext) : List String :=
  match metadataGet user.publicMetadata "scopes" with
  | some (ClaimValue.strList l) => l
  | _ => []

/-- The `"scopes"` public-metadata attribute is absent or a string list —
the shapes for which the unchecked cast in `requireScopes` is honest. -/
def scopesWellTyped (user : UserContext) : Prop :=
  metadataGet user.publicMetadata "scopes" = none ∨
  ∃ l, metadataGet user.publicMetadata "scopes" = some (ClaimValue.strList l)

example : extractToken ⟨some "Bearer my-jwt-token", none, none⟩ = some "my-jwt-token" := by
  decide

example : extractToken ⟨some "Bearer ", none, none⟩ = some "" := by decide

example : extractToken ⟨some "Basic dXNlcjpwYXNz", none, none⟩ = none := by decide

example : extractToken ⟨some "Bearertoken-without-space", none, none⟩ = none := by decide

example : extractToken ⟨some "Bearer header-token", some [("__session", "cookie-token")], none⟩ =
    some "header-token" := by decide

example : extractToken ⟨none, some [("__session", "cookie-token")], none⟩ =
    some "cookie-token" := by decide

/-! ## Concrete inputs used by counterexamples and witnesses -/

/-- A claim set carrying an organization role but no organization id. -/
def rolePayload : JwtPayload :=
  ⟨"user_1", some "sess_1", [("org_role", ClaimValue.str "admin")]⟩

/-- A claim set whose mandatory `sub` claim is the empty string. -/
def emptySubPayload : JwtPayload :=
  ⟨"", some "sess_2", []⟩

/-! ## Claims -/

/-- C2 counterexample: on the claim set `rolePayload`, which carries an
`org_role` string claim but no `org_id` claim, the identity record built by
`mapClerkPayloadToUserContext` has a null organization identifier together
with a non-null organization role — so the three organization fields are
neither all null nor all populated. -/
theorem org_fields_not_coupled_counterexample :
    ¬(((mapClerkPayloadToUserContext rolePayload).orgId = none ∧
       (mapClerkPayloadToUserContext rolePayload).orgRole = none ∧
       (mapClerkPayloadToUserContext rolePayload).orgSlug = none) ∨
      ((mapClerkPayloadToUserContext rolePayload).orgId ≠ none ∧
       (mapClerkPayloadToUserContext rolePayload).orgRole ≠ none ∧
       (mapClerkPayloadToUserContext rolePayload).orgSlug ≠ none)) := by
  decide

/-- C2 (amended): the three organization fields of the identity record are
mapped independently — each equals the corresponding claim when that claim
is a string and is null otherwise; the code nowhere couples them, so a
claim set can produce a record with an organization role and no
organization identifier. -/
theorem org_fields_mapped_independently (payload : JwtPayload) :
    (mapClerkPayloadToUserContext payload).orgId = getStringClaim payload "org_id" ∧
    (mapClerkPayloadToUserContext payload).orgRole = getStringClaim payload "org_role" ∧
    (mapClerkPayloadToUserContext payload).orgSlug = getStringClaim payload "org_slug" :=
  ⟨rfl, rfl, rfl⟩

/-- C3 counterexample: on the claim set `emptySubPayload`, whose `sub`
claim is the empty string, successful verification constructs an identity
record whose subject identifier is empty — the code performs no emptiness
check. -/
theorem empty_subject_counterexample :
    verifyTokenResult (OracleResult.success emptySubPayload) =
      Except.ok (mapClerkPayloadToUserContext emptySubPayload) ∧
    (mapClerkPayloadToUserContext emptySubPayload).userId = "" :=
  ⟨rfl, rfl⟩

/-- C3 (amended): the subject identifier of the constructed identity
record equals the oracle's `sub` claim verbatim; it is therefore non-empty
exactly when the oracle's `sub` claim is non-empty — the delegate adds no
check of its own. -/
theorem userId_is_sub_verbatim (payload : JwtPayload) :
    (mapClerkPayloadToUserContext payload).userId = payload.sub :=
  rfl

/-- C6: the verification delegate maps oracle success to the mapped
identity record without error, and classifies every oracle failure into
exactly one typed error — `TOKEN_EXPIRED` when the thrown value indicates
temporal expiry (an `Error` whose message contains `"expired"`), and
`INVALID_TOKEN` for every other failure. -/
theorem verification_classification :
    (∀ payload, verifyTokenResult (OracleResult.success payload) =
      Except.ok (mapClerkPayloadToUserContext payload)) ∧
    (∀ thrown, verifyTokenResult (OracleResult.failure thrown) =
        Except.error (mapVerificationError thrown) ∧
      (mapVerificationError thrown).code =
        (if expiryIndicated thrown then AuthErrorCode.TOKEN_EXPIRED
         else AuthErrorCode.INVALID_TOKEN)) := by
  refine ⟨fun _ => rfl, fun thrown => ⟨rfl, ?_⟩⟩
  cases thrown with
  | errorObj message =>
      by_cases h : strIncludes message "expired" = true
      · simp [mapVerificationError, expiryIndicated, h, AuthError.make]
      · simp [mapVerificationError, expiryIndicated, h, AuthError.make]
  | nonError => rfl

/-- C7: an `AuthError` constructed without an explicit status override
carries 403 for `FORBIDDEN` and 401 for each of the other three kinds; an
explicit override is taken verbatim; and the installed error handler
replies with exactly the error's status code and the body
`{ error: { code, message } }`. -/
theorem error_status_consistency :
    (∀ message, (AuthError.make AuthErrorCode.FORBIDDEN message none).statusCode = 403) ∧
    (∀ message, (AuthError.make AuthErrorCode.UNAUTHORIZED message none).statusCode = 401) ∧
    (∀ message, (AuthError.make AuthErrorCode.INVALID_TOKEN message none).statusCode = 401) ∧
    (∀ message, (AuthError.make AuthErrorCode.TOKEN_EXPIRED message none).statusCode = 401) ∧
    (∀ code message status,
      (AuthError.make code message (some status)).statusCode = status) ∧
    (∀ error : AuthError, authErrorHandler (HandlerInput.auth error) =
      HandlerResult.reply error.statusCode ⟨error.code, error.message⟩) :=
  ⟨fun _ => rfl, fun _ => rfl, fun _ => rfl, fun _ => rfl, fun _ _ _ => rfl, fun _ => rfl⟩

/-- C8: a guard built by `requirePermission` fails `UNAUTHORIZED` with the
fixed message when no identity record is attached (ignoring the custom
message); with a record attached it succeeds exactly when the predicate
holds and otherwise fails `FORBIDDEN` with the given message. -/
theorem requirePermission_behavior (check : UserContext → Bool) (message : String) :
    requirePermission check message none =
      GuardResult.err (AuthError.make AuthErrorCode.UNAUTHORIZED
        "Authentication required" none) ∧
    (∀ user, requirePermission check message (some user) =
      (if check user then GuardResult.ok
       else GuardResult.err (AuthError.make AuthErrorCode.FORBIDDEN message none))) :=
  ⟨rfl, fun _ => rfl⟩

/-- C10: the expiry classification inspects only the thrown value — an
`Error` object is classified `TOKEN_EXPIRED` exactly when its message
contains the substring `"expired"` (whatever the actual failure reason, as
the concrete non-expiry message below shows), every non-`Error` thrown
value is classified `INVALID_TOKEN`, and the delegate propagates exactly
this classification. -/
theorem expiry_classification_by_substring :
    (∀ message, (mapVerificationError (Thrown.errorObj message)).code =
      (if strIncludes message "expired" then AuthErrorCode.TOKEN_EXPIRED
       else AuthErrorCode.INVALID_TOKEN)) ∧
    (mapVerificationError Thrown.nonError).code = AuthErrorCode.INVALID_TOKEN ∧
    (mapVerificationError
      (Thrown.errorObj "audience mismatch: expired-audience hint")).code =
      AuthErrorCode.TOKEN_EXPIRED ∧
    (∀ thrown, verifyTokenResult (OracleResult.failure thrown) =
      Except.error (mapVerificationError thrown)) := by
  refine ⟨?_, rfl, by decide, fun _ => rfl⟩
  intro message
  by_cases h : strIncludes message "expired" = true
  · simp [mapVerificationError, h, AuthError.make]
  · simp [mapVerificationError, h, AuthError.make]

/-- Plugin options with every field unset: public-route recognition is on
by default. -/
def defaultOptions : AuthPluginOptions := ⟨none⟩

/-- An oracle that rejects every token with a non-`Error` thrown value. -/
def rejectingOracle : String → OracleResult :=
  fun _ => OracleResult.failure Thrown.nonError

/-- A request whose Authorization header is exactly the bearer prefix
followed by nothing, with no cookies and no route configuration. -/
def emptyBearerRequest : Request := ⟨some "Bearer ", none, none⟩

/-- C1 counterexample: for the request whose Authorization header is
exactly `"Bearer "`, extraction does return the literal empty string, but
the gate's falsy check `if (!token)` treats it as no credential: the hook
throws `UNAUTHORIZED` and the verification delegate is never invoked — the
request does not proceed to verification and does not fail there as
`INVALID_TOKEN`. -/
theorem empty_bearer_counterexample :
    extractToken emptyBearerRequest = some "" ∧
    (authPreHandler defaultOptions rejectingOracle emptyBearerRequest).verifierCalled = false ∧
    (authPreHandler defaultOptions rejectingOracle emptyBearerRequest).thrown =
      some (AuthError.make AuthErrorCode.UNAUTHORIZED "Authentication required" none) := by
  refine ⟨by decide, by decide, by decide⟩

/-- C1 (amended): for every request whose Authorization header is exactly
`"Bearer "` and that is not bypassed as a public route, the extractor
returns the literal empty string, but the gate's `if (!token)` check —
under which the empty string is falsy — raises `UNAUTHORIZED` at the gate
itself: no identity is attached, the error is reported to the failure
observer, and the verification delegate is never invoked. -/
theorem empty_bearer_fails_at_gate (options : AuthPluginOptions)
    (oracle : String → OracleResult) (cookies : Option (List (String × String)))
    (routePublic : Option Bool)
    (hpub : ¬(options.respectPublicRoutes ≠ some false ∧ routePublic = some true)) :
    extractToken ⟨some "Bearer ", cookies, routePublic⟩ = some "" ∧
    authPreHandler options oracle ⟨some "Bearer ", cookies, routePublic⟩ =
      ⟨none,
       some (AuthError.make AuthErrorCode.UNAUTHORIZED "Authentication required" none),
       [AuthError.make AuthErrorCode.UNAUTHORIZED "Authentication required" none],
       true, false⟩ := by
  constructor
  · rfl
  · unfold authPreHandler
    rw [if_neg hpub]
    rfl

/-- C1 witness for the amended claim, at a concrete request that also
carries a session cookie (which, per the header-first priority, is never
consulted). -/
theorem empty_bearer_fails_at_gate_witness :
    extractToken ⟨some "Bearer ", some [("__session", "cookie-token")], none⟩ = some "" ∧
    authPreHandler ⟨none⟩ rejectingOracle
        ⟨some "Bearer ", some [("__session", "cookie-token")], none⟩ =
      ⟨none,
       some (AuthError.make AuthErrorCode.UNAUTHORIZED "Authentication required" none),
       [AuthError.make AuthErrorCode.UNAUTHORIZED "Authentication required" none],
       true, false⟩ :=
  empty_bearer_fails_at_gate ⟨none⟩ rejectingOracle
    (some [("__session", "cookie-token")]) none (by decide)

/-- C4: extraction checks the Authorization header first and the
`__session` cookie second — a bearer-scheme header yields the substring
after the prefix verbatim (including the empty string) for every possible
cookie state; when the header is absent or non-bearer, any extracted value
is the cookie's value verbatim; and when additionally no `__session`
cookie entry exists, extraction yields "none found". -/
theorem extraction_priority (auth : Option String)
    (cookies : Option (List (String × String))) (routePublic : Option Bool) :
    (∀ h, auth = some h → strStartsWith h "Bearer " = true →
      ∀ cookies2, extractToken ⟨some h, cookies2, routePublic⟩ = some (strSlice h 7)) ∧
    ((auth = none ∨ ∀ h, auth = some h → strStartsWith h "Bearer " = false) →
      (∀ v, extractToken ⟨auth, cookies, routePublic⟩ = some v →
        cookies.bind (List.lookup "__session") = some v) ∧
      (cookies.bind (List.lookup "__session") = none →
        extractToken ⟨auth, cookies, routePublic⟩ = none)) := by
  constructor
  · intro h _ hsw cookies2
    unfold extractToken
    simp [hsw]
  · intro hnb
    have hext : extractToken ⟨auth, cookies, routePublic⟩ =
        extractSessionCookie ⟨auth, cookies, routePublic⟩ := by
      cases auth with
      | none => rfl
      | some h =>
          have hsw : strStartsWith h "Bearer " = false := by
            rcases hnb with hn | hf
            · exact absurd hn (by simp)
            · exact hf h rfl
          unfold extractToken
          simp [hsw]
    constructor
    · intro v hv
      rw [hext] at hv
      cases cookies with
      | none => simp [extractSessionCookie] at hv
      | some cs =>
          show cs.lookup "__session" = some v
          simp only [extractSessionCookie] at hv
          cases hl : cs.lookup "__session" with
          | none => rw [hl] at hv; simp at hv
          | some w =>
              rw [hl] at hv
              by_cases hw : w = ""
              · simp [hw] at hv
              · simp [hw] at hv
                rw [hv]
    · intro hnone
      rw [hext]
      unfold extractSessionCookie
      cases cookies with
      | none => rfl
      | some cs =>
          have hcs : cs.lookup "__session" = none := by simpa using hnone
          simp [hcs]

/-- C4 witness: a bearer header wins over a present cookie, and a
non-bearer header falls through to the cookie. -/
theorem extraction_priority_witness :
    extractToken ⟨some "Bearer tok", some [("__session", "c1")], none⟩ = some "tok" ∧
    (some [("__session", "c1")] : Option (List (String × String))).bind
      (List.lookup "__session") = some "c1" := by
  constructor
  · have h := (extraction_priority (some "Bearer tok") (some [("__session", "c1")]) none).1
      "Bearer tok" rfl (by decide) (some [("__session", "c1")])
    exact h.trans (by decide)
  · exact ((extraction_priority (some "Basic x") (some [("__session", "c1")]) none).2
      (Or.inr (fun h hh => by cases hh; decide))).1 "c1" (by decide)

/-- C5: while public-route recognition is enabled (every option value
other than an explicit `false`), a request to a route carrying the public
marker makes the pre-handler a no-op — no extraction, no verification, no
identity attached, no error thrown, no failure-observer report. -/
theorem public_route_bypass (options : AuthPluginOptions)
    (oracle : String → OracleResult) (request : Request)
    (hresp : options.respectPublicRoutes ≠ some false)
    (hpub : request.routeConfigPublic = some true) :
    authPreHandler options oracle request = ⟨none, none, [], false, false⟩ := by
  unfold authPreHandler
  rw [if_pos ⟨hresp, hpub⟩]

/-- C5 witness: a public route with a bearer header present is still
bypassed untouched. -/
theorem public_route_bypass_witness :
    authPreHandler ⟨none⟩ rejectingOracle ⟨some "Bearer tok", none, some true⟩ =
      ⟨none, none, [], false, false⟩ :=
  public_route_bypass ⟨none⟩ rejectingOracle ⟨some "Bearer tok", none, some true⟩
    (by decide) rfl

/-- A scope guard applied to an attached record succeeds exactly when the
scope predicate over the public metadata evaluates to true. -/
theorem requireScopes_ok_iff (user : UserContext) (scopes : List String) :
    requireScopes scopes (some user) = GuardResult.ok ↔
    (scopes.all fun s =>
      optionalIncludes (metadataGet user.publicMetadata "scopes") s) = true := by
  unfold requireScopes requirePermission
  by_cases h : (scopes.all fun s =>
      optionalIncludes (metadataGet user.publicMetadata "scopes") s) = true
  · simp [h]
  · simp [h]

/-- C9: `requireScopes([])` succeeds for every attached identity record,
including one with no "scopes" attribute; and for a record whose "scopes"
public-metadata attribute is absent or a string list, `requireScopes`
succeeds exactly when every requested scope is in the caller's scopes list
(an absent attribute read as the empty list). -/
theorem requireScopes_characterization :
    (∀ user, requireScopes [] (some user) = GuardResult.ok) ∧
    (∀ user, scopesWellTyped user → ∀ scopes,
      (requireScopes scopes (some user) = GuardResult.ok ↔
        ∀ s ∈ scopes, s ∈ scopesOf user)) := by
  constructor
  · intro user
    simp [requireScopes, requirePermission]
  · intro user hw scopes
    rcases hw with habs | ⟨l, hl⟩
    · rw [requireScopes_ok_iff]
      simp [habs, optionalIncludes, scopesOf, List.all_eq_true]
    · rw [requireScopes_ok_iff]
      simp [hl, optionalIncludes, scopesOf, List.all_eq_true]

/-- An identity record whose public metadata carries a scopes list. -/
def scopedUser : UserContext :=
  ⟨"user_9", "sess_9", none, none, none, none, none, none, none,
   ClaimValue.obj [("scopes", ClaimValue.strList ["read", "write"])],
   ClaimValue.obj [], ⟨"user_9", some "sess_9", []⟩⟩

/-- C9 witness: a concrete record with scopes `["read", "write"]` passes
`requireScopes ["read"]` and `requireScopes []`. -/
theorem requireScopes_characterization_witness :
    requireScopes ["read"] (some scopedUser) = GuardResult.ok ∧
    requireScopes [] (some scopedUser) = GuardResult.ok := by
  constructor
  · exact (requireScopes_characterization.2 scopedUser
      (Or.inr ⟨["read", "write"], rfl⟩) ["read"]).mpr (by decide)
  · exact requireScopes_characterization.1 scopedUser
